import Mathlib

/-
  Verification development for the decks-mn lead-capture service
  (src/server.js).  The submission handler `POST /api/submit` is embedded
  shallowly: request-body values are modelled by `JVal` (JavaScript values as
  they matter to this handler), the validation / lead-construction phase
  (server.js lines 57-82) by `validateAndBuild`, the forwarding helpers
  `forwardToWebhook` / `forwardToAPI` (lines 129-154) by functions that
  return both the HTTP request they issue and the promise outcome, and the
  whole handler (lines 55-120) by `handleSubmit`, with the
  `Promise.race([Promise.allSettled(...), setTimeout(8000)])` wait modelled
  by explicit settle times.
-/

set_option maxRecDepth 4096

namespace DecksMN

/-- Whitespace as matched by the JavaScript regular-expression class `\s`
(and trimmed by `String.prototype.trim`): tab through carriage return,
space, NBSP, the Unicode space separators, line/paragraph separators and
the BOM. -/
def isJsSpace (c : Char) : Bool :=
  let n := c.toNat
  (9 ≤ n && n ≤ 13) || n = 32 || n = 0xA0 || n = 0x1680 ||
    (0x2000 ≤ n && n ≤ 0x200A) || n = 0x2028 || n = 0x2029 ||
    n = 0x202F || n = 0x205F || n = 0x3000 || n = 0xFEFF

/-- JavaScript `String.prototype.trim`: drop leading and trailing
whitespace. -/
def jsTrimStr (s : String) : String :=
  String.mk (((s.data.dropWhile isJsSpace).reverse.dropWhile isJsSpace).reverse)

/-- JavaScript `String.prototype.toLowerCase`, modelled on the ASCII
range (the only range the claims exercise). -/
def jsToLowerChar (c : Char) : Char :=
  if 65 ≤ c.toNat && c.toNat ≤ 90 then Char.ofNat (c.toNat + 32) else c

/-- Lower-case a whole string, character by character. -/
def jsToLowerStr (s : String) : String :=
  String.mk (s.data.map jsToLowerChar)

/-- A character admitted by the class `[^\s@]` of the email pattern. -/
def okEmailChar (c : Char) : Bool :=
  !(isJsSpace c) && c ≠ '@'

/-- Split a character list at its first `'@'`; `none` when there is no
`'@'` at all. -/
def splitAtFirstAt : List Char → Option (List Char × List Char)
  | [] => none
  | c :: cs =>
    if c = '@' then some ([], cs)
    else
      match splitAtFirstAt cs with
      | none => none
      | some (a, b) => some (c :: a, b)

/-- The test `/^[^\s@]+@[^\s@]+\.[^\s@]+$/.test(s)` of server.js line 63.
The anchored pattern matches exactly the strings of the form
`A ++ "@" ++ B` where `A` is a non-empty run of `[^\s@]` characters and
`B` is a run of `[^\s@]` characters containing a `'.'` that is neither its
first nor its last character (both classes admit `'.'`, so backtracking
lets any internal dot serve as the literal `\.`). -/
def emailRegexTest (s : String) : Bool :=
  match splitAtFirstAt s.data with
  | none => false
  | some (a, b) =>
    !a.isEmpty && a.all okEmailChar && b.all okEmailChar &&
      ((b.drop 1).dropLast.contains '.')

/-- The JavaScript values a submitted body field can take, as far as the
handler distinguishes them: absent (`undefined`), `null`, a string, a
number (integral model), a boolean, or a non-string object (modelled
without a `trim` method and with no own enumerable properties). -/
inductive JVal where
  | undef
  | null
  | str (s : String)
  | num (n : Int)
  | bool (b : Bool)
  | obj
deriving DecidableEq, Repr

/-- JavaScript truthiness of a `JVal`. -/
def JVal.truthy : JVal → Bool
  | .undef => false
  | .null => false
  | .str s => s ≠ ""
  | .num n => n ≠ 0
  | .bool b => b
  | .obj => true

/-- Whether a `JVal` is a string. -/
def JVal.isStr : JVal → Bool
  | .str _ => true
  | _ => false

/-- The TypeError raised when `.trim()` is called on a non-string value. -/
def trimErrMsg : String := "TypeError: trim is not a function"

/-- Calling `.trim()` on a `JVal`: succeeds with the trimmed string on
strings, raises a TypeError on every other value. -/
def JVal.trimJS : JVal → Except String String
  | .str s => .ok (jsTrimStr s)
  | _ => .error trimErrMsg

/-- How a `JVal` renders when concatenated into a log line. -/
def JVal.display : JVal → String
  | .undef => "undefined"
  | .null => "null"
  | .str s => s
  | .num n => toString n
  | .bool b => cond b "true" "false"
  | .obj => "[object Object]"

/-- The lead payload built at server.js lines 71-82.  `service` and
`financing` are passed through `service || ""` untrimmed and uncoerced, so
they keep their `JVal` type; every other field is a string there. -/
structure Lead where
  fullName : String
  email : String
  phone : String
  service : JVal
  zipCode : String
  financing : JVal
  message : String
  submittedAt : String
  source : String
  ip : String
deriving DecidableEq, Repr

/-- Lower-case hexadecimal digit, as `JSON.stringify` emits in `\u`
escapes. -/
def hexDigit (n : Nat) : Char :=
  if n < 10 then Char.ofNat (48 + n) else Char.ofNat (87 + n)

/-- Escape one character the way `JSON.stringify` escapes string
contents. -/
def jsonEscapeChar (c : Char) : String :=
  if c = '"' then "\\\""
  else if c = '\\' then "\\\\"
  else if c = '\x08' then "\\b"
  else if c = '\x0c' then "\\f"
  else if c = '\n' then "\\n"
  else if c = '\r' then "\\r"
  else if c = '\t' then "\\t"
  else if c.toNat < 32 then
    "\\u00" ++ String.mk [hexDigit (c.toNat / 16), hexDigit (c.toNat % 16)]
  else String.singleton c

/-- A JSON string literal for `s`. -/
def jsonQuote (s : String) : String :=
  "\"" ++ String.join (s.data.map jsonEscapeChar) ++ "\""

/-- JSON text of a `JVal` lead field; `none` when `JSON.stringify` omits
the key (value `undefined`). -/
def jvalJsonRepr : JVal → Option String
  | .undef => none
  | .null => some "null"
  | .str s => some (jsonQuote s)
  | .num n => some (toString n)
  | .bool b => some (cond b "true" "false")
  | .obj => some ("\x7b" ++ "\x7d")

/-- One `"key":value` member for a string-valued field. -/
def strField (name : String) (s : String) : Option String :=
  some (jsonQuote name ++ ":" ++ jsonQuote s)

/-- One `"key":value` member for a `JVal`-valued field, omitted when the
value is `undefined`. -/
def jvalField (name : String) (v : JVal) : Option String :=
  (jvalJsonRepr v).map (fun j => jsonQuote name ++ ":" ++ j)

/-- `JSON.stringify(lead)`: the members in declaration order of the object
literal at server.js lines 71-82, comma-separated inside braces. -/
def Lead.stringify (l : Lead) : String :=
  "\x7b" ++ String.intercalate ","
    (List.filterMap id
      [strField "fullName" l.fullName,
       strField "email" l.email,
       strField "phone" l.phone,
       jvalField "service" l.service,
       strField "zipCode" l.zipCode,
       jvalField "financing" l.financing,
       strField "message" l.message,
       strField "submittedAt" l.submittedAt,
       strField "source" l.source,
       strField "ip" l.ip]) ++ "\x7d"

/-- Environment-derived configuration (server.js lines 12-14); each value
defaults to `""` when the variable is unset. -/
structure Config where
  webhookUrl : String
  apiUrl : String
  apiKey : String
deriving DecidableEq, Repr

/-- An inbound submission request: the seven destructured body fields, the
`referer` header (absent or its string value) and `req.ip`. -/
structure Req where
  fullName : JVal
  email : JVal
  phone : JVal
  service : JVal
  message : JVal
  zipCode : JVal
  financing : JVal
  referer : Option String
  ip : String
deriving DecidableEq, Repr

/-- Body of a handler response: `res.json` of either a success
acknowledgment or an error object. -/
inductive RespBody where
  | ack (message : String)
  | failure (error : String)
deriving DecidableEq, Repr

/-- An HTTP response of the handler: status plus JSON body. -/
structure Resp where
  status : Nat
  body : RespBody
deriving DecidableEq, Repr

/-- The 400 response of server.js line 61. -/
def fullNameErrResp : Resp := ⟨400, .failure "Full name is required."⟩

/-- The 400 response of server.js line 64. -/
def emailErrResp : Resp := ⟨400, .failure "A valid email address is required."⟩

/-- The 400 response of server.js line 67. -/
def messageErrResp : Resp := ⟨400, .failure "Please include a message about your project."⟩

/-- The 500 response of server.js line 118. -/
def internalErrResp : Resp := ⟨500, .failure "Something went wrong. Please try again."⟩

/-- The success response of server.js line 115. -/
def ackResp : Resp := ⟨200, .ack "Quote request submitted successfully!"⟩

/-- The check `!v || !v.trim()` (server.js lines 60 and 66): `true` means
the required field is missing or blank; calling `.trim()` on a truthy
non-string raises. -/
def checkRequired (v : JVal) : Except String Bool :=
  if !v.truthy then .ok true
  else
    match v with
    | .str s => .ok (jsTrimStr s == "")
    | _ => .error trimErrMsg

/-- The check `!email || !email.trim() || !re.test(email)` (server.js
line 63); the regex runs on the untrimmed value. -/
def checkEmail (v : JVal) : Except String Bool :=
  if !v.truthy then .ok true
  else
    match v with
    | .str s => .ok (jsTrimStr s == "" || !emailRegexTest s)
    | _ => .error trimErrMsg

/-- The expression `v ? v.trim() : ""` (server.js lines 74 and 76). -/
def optTrim (v : JVal) : Except String String :=
  if v.truthy then v.trimJS else .ok ""

/-- The expression `v || ""` (server.js lines 75 and 77). -/
def jsOrEmpty (v : JVal) : JVal :=
  if v.truthy then v else .str ""

/-- The expression `req.headers.referer || "direct"` (server.js line 80). -/
def refererOrDirect : Option String → String
  | some r => if r = "" then "direct" else r
  | none => "direct"

/-- Lines 57-82 of server.js: run the three validations in order, first
failure winning, then build the lead object.  `Except.error` models a
thrown exception (a `.trim()` call on a truthy non-string), `.inl` a 400
validation response, `.inr` the constructed lead.  The trailing five-way
match mirrors the evaluation order of the object literal, whose throwing
subexpressions are `fullName.trim()`, `email.trim()`, the `phone`
conditional, the `zipCode` conditional and `message.trim()`. -/
def validateAndBuild (req : Req) (now : String) : Except String (Resp ⊕ Lead) :=
  match checkRequired req.fullName with
  | .error e => .error e
  | .ok true => .ok (.inl fullNameErrResp)
  | .ok false =>
    match checkEmail req.email with
    | .error e => .error e
    | .ok true => .ok (.inl emailErrResp)
    | .ok false =>
      match checkRequired req.message with
      | .error e => .error e
      | .ok true => .ok (.inl messageErrResp)
      | .ok false =>
        match req.fullName.trimJS, req.email.trimJS, optTrim req.phone,
              optTrim req.zipCode, req.message.trimJS with
        | .ok fn, .ok em, .ok ph, .ok zp, .ok ms =>
          .ok (.inr
            { fullName := fn
              email := jsToLowerStr em
              phone := ph
              service := jsOrEmpty req.service
              zipCode := zp
              financing := jsOrEmpty req.financing
              message := ms
              submittedAt := now
              source := refererOrDirect req.referer
              ip := req.ip })
        | .error e, _, _, _, _ => .error e
        | _, .error e, _, _, _ => .error e
        | _, _, .error e, _, _ => .error e
        | _, _, _, .error e, _ => .error e
        | _, _, _, _, .error e => .error e

/-- The outbound HTTP request handed to `fetch`. -/
structure HttpRequest where
  url : String
  method : String
  headers : List (String × String)
  body : String
deriving DecidableEq, Repr

/-- A fetch `Response`, reduced to its status code. -/
structure FetchResponse where
  status : Nat
deriving DecidableEq, Repr

/-- `response.ok`: status in the 2xx range. -/
def FetchResponse.respOk (r : FetchResponse) : Bool :=
  200 ≤ r.status && r.status < 300

/-- How a `fetch` call turns out: a response arrives, or the promise
rejects with a network failure. -/
inductive FetchOutcome where
  | response (r : FetchResponse)
  | networkFailure (msg : String)
deriving DecidableEq, Repr

/-- A settled promise: resolved with a value or rejected with an error
message. -/
inductive PromiseResult (α : Type) where
  | resolved (value : α)
  | rejected (msg : String)
deriving DecidableEq, Repr

/-- `fetch(request)` under a given outcome: the request goes out either
way; the promise resolves with the response or rejects. -/
def fetchModel (reqst : HttpRequest) (o : FetchOutcome) :
    HttpRequest × PromiseResult FetchResponse :=
  (reqst,
   match o with
   | .response r => .resolved r
   | .networkFailure m => .rejected m)

/-- Server.js lines 129-139: POST the JSON lead with a Content-Type
header; throw `Webhook returned <status>` when `!response.ok`. -/
def forwardToWebhook (url : String) (payload : Lead) (o : FetchOutcome) :
    HttpRequest × PromiseResult FetchResponse :=
  let f := fetchModel
    { url := url
      method := "POST"
      headers := [("Content-Type", "application/json")]
      body := payload.stringify } o
  (f.1,
   match f.2 with
   | .rejected m => .rejected m
   | .resolved r =>
     if r.respOk then .resolved r
     else .rejected ("Webhook returned " ++ toString r.status))

/-- Server.js lines 141-154: like the webhook, but the headers gain
`Authorization: Bearer <key>` when the key is truthy, and the thrown
message reads `API returned <status>`. -/
def forwardToAPI (url : String) (apiKey : String) (payload : Lead)
    (o : FetchOutcome) : HttpRequest × PromiseResult FetchResponse :=
  let headers :=
    if apiKey ≠ "" then
      [("Content-Type", "application/json"), ("Authorization", "Bearer " ++ apiKey)]
    else [("Content-Type", "application/json")]
  let f := fetchModel
    { url := url, method := "POST", headers := headers, body := payload.stringify } o
  (f.1,
   match f.2 with
   | .rejected m => .rejected m
   | .resolved r =>
     if r.respOk then .resolved r
     else .rejected ("API returned " ++ toString r.status))

/-- What a promise pushed onto `webhookResults` settles to: the fetch
response, or the `\x7b error: err.message \x7d` object produced by the
`.catch` handler. -/
inductive SettledVal where
  | response (r : FetchResponse)
  | errObj (msg : String)
deriving DecidableEq, Repr

/-- `p.catch(handler)` where the handler returns a value: a rejection is
converted into a resolution with the handler result. -/
def jsCatch {α : Type} (p : PromiseResult α) (handler : String → α) :
    PromiseResult α :=
  match p with
  | .resolved a => .resolved a
  | .rejected m => .resolved (handler m)

/-- Embed a fetch promise into the settled-value type. -/
def toSettled : PromiseResult FetchResponse → PromiseResult SettledVal
  | .resolved r => .resolved (.response r)
  | .rejected m => .rejected m

/-- Server.js lines 91-94 / 100-103: attach the logging `.catch` to a sink
call.  Returns the wrapped promise together with the log lines the catch
handler emits. -/
def wrapSink (label : String) (p : PromiseResult FetchResponse) :
    PromiseResult SettledVal × List String :=
  (jsCatch (toSettled p) (fun m => .errObj m),
   match p with
   | .rejected m => ["[" ++ label ++ " error] " ++ m]
   | .resolved _ => [])

/-- When `Promise.allSettled` of promises with the given settle times
settles: the maximum, or never (`none`) when some promise never
settles. -/
def allSettledTime : List (Option Nat) → Option Nat
  | [] => some 0
  | t :: ts =>
    match t, allSettledTime ts with
    | some a, some b => some (max a b)
    | _, _ => none

/-- When `Promise.race([Promise.allSettled(ps), setTimeout(ceiling)])`
resolves. -/
def raceTime (ts : List (Option Nat)) (ceiling : Nat) : Nat :=
  match allSettledTime ts with
  | some t => min t ceiling
  | none => ceiling

/-- Behaviour of one sink during a request: the fetch outcome and the time
at which the wrapped promise settles (`none`: still pending forever). -/
structure SinkBehavior where
  outcome : FetchOutcome
  settleTime : Option Nat
deriving DecidableEq, Repr

/-- Settle times of the promises actually pushed onto `webhookResults`,
in push order. -/
def configuredSettleTimes (cfg : Config) (wB aB : SinkBehavior) :
    List (Option Nat) :=
  (if cfg.webhookUrl ≠ "" then [wB.settleTime] else []) ++
    (if cfg.apiUrl ≠ "" then [aB.settleTime] else [])

/-- Everything observable about one run of the handler: the response, the
outbound sink requests (labelled by sink), what each wrapped sink promise
settled to, the time (ms after receipt) at which the response is sent, and
the log lines. -/
structure SubmitResult where
  resp : Resp
  calls : List (String × HttpRequest)
  settled : List (String × PromiseResult SettledVal)
  respTime : Nat
  logs : List String
deriving DecidableEq, Repr

/-- The whole `POST /api/submit` handler (server.js lines 55-120).  A
thrown exception reaches the catch of line 116 and yields the fixed 500
response; a validation failure returns its 400 response with no sink
activity; otherwise the lead is built, each configured sink is called with
its logging catch attached, the handler waits for
`Promise.race([Promise.allSettled(results), setTimeout(8000)])` when at
least one sink is configured, and the fixed success acknowledgment is
sent. -/
def handleSubmit (cfg : Config) (req : Req) (now : String)
    (wB aB : SinkBehavior) : SubmitResult :=
  match validateAndBuild req now with
  | .error e =>
    { resp := internalErrResp, calls := [], settled := [], respTime := 0,
      logs := ["[Submit error] " ++ e] }
  | .ok (.inl errResp) =>
    { resp := errResp, calls := [], settled := [], respTime := 0, logs := [] }
  | .ok (.inr lead) =>
    let receiptLog := "[Lead received] " ++ lead.email ++ " " ++
      (if lead.service.truthy then lead.service.display else "no service selected")
    let wFwd := forwardToWebhook cfg.webhookUrl lead wB.outcome
    let aFwd := forwardToAPI cfg.apiUrl cfg.apiKey lead aB.outcome
    let wWrapped := wrapSink "Webhook" wFwd.2
    let aWrapped := wrapSink "API" aFwd.2
    let calls :=
      (if cfg.webhookUrl ≠ "" then [("Webhook", wFwd.1)] else []) ++
        (if cfg.apiUrl ≠ "" then [("API", aFwd.1)] else [])
    let settled :=
      (if cfg.webhookUrl ≠ "" then [("Webhook", wWrapped.1)] else []) ++
        (if cfg.apiUrl ≠ "" then [("API", aWrapped.1)] else [])
    let sinkLogs :=
      (if cfg.webhookUrl ≠ "" then wWrapped.2 else []) ++
        (if cfg.apiUrl ≠ "" then aWrapped.2 else [])
    let waitTime :=
      if calls.isEmpty then 0 else raceTime (configuredSettleTimes cfg wB aB) 8000
    { resp := ackResp, calls := calls, settled := settled,
      respTime := waitTime, logs := receiptLog :: sinkLogs }

/-- Whether a `JVal` is a string or an absent value (`undefined` or
`null`) - the domain the spec assigns to body fields. -/
def isStrOrAbsent : JVal → Bool
  | .undef => true
  | .null => true
  | .str _ => true
  | _ => false

/-- Spec wording for steps 1 and 3 of validation: the field is missing or
blank after trim. -/
def specMissingOrBlank : JVal → Bool
  | .str s => jsTrimStr s == ""
  | _ => true

/-- Spec wording for step 2 of validation: the email is missing, blank, or
does not match the pattern. -/
def specEmailInvalid : JVal → Bool
  | .str s => jsTrimStr s == "" || !emailRegexTest s
  | _ => true

/-- Whether a `JVal` is truthy but not a string - the values on which a
`.trim()` call raises. -/
def truthyNonStr (v : JVal) : Bool :=
  v.truthy && !v.isStr

end DecksMN

namespace DecksMN

/-! Concrete inputs shared by witnesses and counterexamples. -/

/-- Configuration with no sinks set. -/
def cfgNone : Config := ⟨"", "", ""⟩

/-- Configuration with both sinks and an API key set. -/
def cfgBoth : Config := ⟨"https://hooks.example/lead", "https://api.example/lead", "k-123"⟩

/-- A sink that answers 200 and settles immediately. -/
def behav200 : SinkBehavior := ⟨.response ⟨200⟩, some 0⟩

/-- A sink that answers 500 and settles after 100 ms. -/
def behav500 : SinkBehavior := ⟨.response ⟨500⟩, some 100⟩

/-- A sink whose promise never settles. -/
def behavHang : SinkBehavior := ⟨.networkFailure "socket hang up", none⟩

/-- A plain valid submission. -/
def reqValid : Req :=
  { fullName := .str "Jane Doe", email := .str "jane@example.com", phone := .undef,
    service := .undef, message := .str "Need a deck", zipCode := .undef,
    financing := .undef, referer := none, ip := "203.0.113.5" }

/-- The lead `reqValid` builds at time `"t"`. -/
def leadValid : Lead :=
  { fullName := "Jane Doe", email := "jane@example.com", phone := "",
    service := .str "", zipCode := "", financing := .str "",
    message := "Need a deck", submittedAt := "t", source := "direct",
    ip := "203.0.113.5" }

/-- A submission with the full name absent. -/
def reqNoName : Req :=
  { fullName := .undef, email := .str "a@b.co", phone := .undef, service := .undef,
    message := .str "hello", zipCode := .undef, financing := .undef,
    referer := none, ip := "203.0.113.7" }

/-- A submission whose full name is the number 5. -/
def reqNum5 : Req :=
  { fullName := .num 5, email := .str "a@b.co", phone := .undef, service := .undef,
    message := .str "hello", zipCode := .undef, financing := .undef,
    referer := none, ip := "203.0.113.8" }

/-! Helper lemmas about the validation checks. -/

/-- A required-field check that returns `false` (field acceptable) pins the
field to a non-empty string with non-blank trim. -/
theorem checkRequired_ok_false {v : JVal} (h : checkRequired v = .ok false) :
    ∃ s, v = .str s ∧ s ≠ "" ∧ jsTrimStr s ≠ "" := by
  cases v with
  | undef => simp [checkRequired, JVal.truthy] at h
  | null => simp [checkRequired, JVal.truthy] at h
  | obj => simp [checkRequired, JVal.truthy] at h
  | num n => by_cases hn : n = 0 <;> simp [checkRequired, JVal.truthy, hn] at h
  | bool b => cases b <;> simp [checkRequired, JVal.truthy] at h
  | str s =>
    by_cases hs : s = ""
    · subst hs; simp [checkRequired, JVal.truthy] at h
    · simp [checkRequired, JVal.truthy, hs] at h
      exact ⟨s, rfl, hs, h⟩

/-- An email check that returns `false` pins the field to a non-empty
string with non-blank trim that matches the pattern. -/
theorem checkEmail_ok_false {v : JVal} (h : checkEmail v = .ok false) :
    ∃ s, v = .str s ∧ s ≠ "" ∧ jsTrimStr s ≠ "" ∧ emailRegexTest s = true := by
  cases v with
  | undef => simp [checkEmail, JVal.truthy] at h
  | null => simp [checkEmail, JVal.truthy] at h
  | obj => simp [checkEmail, JVal.truthy] at h
  | num n => by_cases hn : n = 0 <;> simp [checkEmail, JVal.truthy, hn] at h
  | bool b => cases b <;> simp [checkEmail, JVal.truthy] at h
  | str s =>
    by_cases hs : s = ""
    · subst hs; simp [checkEmail, JVal.truthy] at h
    · simp [checkEmail, JVal.truthy, hs] at h
      exact ⟨s, rfl, hs, h.1, h.2⟩

/-- A required-field check that returns `true` saw a falsy value or a
string. -/
theorem checkRequired_ok_true_shape {v : JVal} (h : checkRequired v = .ok true) :
    v.truthy = false ∨ v.isStr = true := by
  cases v with
  | undef => exact Or.inl rfl
  | null => exact Or.inl rfl
  | str s => exact Or.inr rfl
  | num n => by_cases hn : n = 0 <;> simp_all [checkRequired, JVal.truthy, hn]
  | bool b => cases b <;> simp_all [checkRequired, JVal.truthy]
  | obj => simp [checkRequired, JVal.truthy] at h

/-- An email check that returns `true` saw a falsy value or a string. -/
theorem checkEmail_ok_true_shape {v : JVal} (h : checkEmail v = .ok true) :
    v.truthy = false ∨ v.isStr = true := by
  cases v with
  | undef => exact Or.inl rfl
  | null => exact Or.inl rfl
  | str s => exact Or.inr rfl
  | num n => by_cases hn : n = 0 <;> simp_all [checkEmail, JVal.truthy, hn]
  | bool b => cases b <;> simp_all [checkEmail, JVal.truthy]
  | obj => simp [checkEmail, JVal.truthy] at h

/-- On string-or-absent values the required-field check never raises and
agrees with the spec wording `missing or blank (after trim)`. -/
theorem checkRequired_eq_spec {v : JVal} (h : isStrOrAbsent v = true) :
    checkRequired v = .ok (specMissingOrBlank v) := by
  cases v with
  | undef => rfl
  | null => rfl
  | str s =>
    by_cases hs : s = ""
    · subst hs; rfl
    · simp [checkRequired, specMissingOrBlank, JVal.truthy, hs]
  | num n => simp [isStrOrAbsent] at h
  | bool b => simp [isStrOrAbsent] at h
  | obj => simp [isStrOrAbsent] at h

/-- On string-or-absent values the email check never raises and agrees
with the spec wording `missing, blank, or not matching`. -/
theorem checkEmail_eq_spec {v : JVal} (h : isStrOrAbsent v = true) :
    checkEmail v = .ok (specEmailInvalid v) := by
  cases v with
  | undef => rfl
  | null => rfl
  | str s =>
    by_cases hs : s = ""
    · subst hs; rfl
    · simp [checkEmail, specEmailInvalid, JVal.truthy, hs]
  | num n => simp [isStrOrAbsent] at h
  | bool b => simp [isStrOrAbsent] at h
  | obj => simp [isStrOrAbsent] at h

/-- Calling `.trim()` on a truthy non-string raises in the required-field
check. -/
theorem checkRequired_truthyNonStr {v : JVal} (h : truthyNonStr v = true) :
    checkRequired v = .error trimErrMsg := by
  cases v with
  | undef => simp [truthyNonStr, JVal.truthy] at h
  | null => simp [truthyNonStr, JVal.truthy] at h
  | str s => simp [truthyNonStr, JVal.isStr] at h
  | num n =>
    simp [truthyNonStr, JVal.truthy, JVal.isStr] at h
    simp [checkRequired, JVal.truthy, h]
  | bool b =>
    simp [truthyNonStr, JVal.truthy, JVal.isStr] at h
    simp [checkRequired, JVal.truthy, h]
  | obj => rfl

/-- Calling `.trim()` on a truthy non-string raises in the email check. -/
theorem checkEmail_truthyNonStr {v : JVal} (h : truthyNonStr v = true) :
    checkEmail v = .error trimErrMsg := by
  cases v with
  | undef => simp [truthyNonStr, JVal.truthy] at h
  | null => simp [truthyNonStr, JVal.truthy] at h
  | str s => simp [truthyNonStr, JVal.isStr] at h
  | num n =>
    simp [truthyNonStr, JVal.truthy, JVal.isStr] at h
    simp [checkEmail, JVal.truthy, h]
  | bool b =>
    simp [truthyNonStr, JVal.truthy, JVal.isStr] at h
    simp [checkEmail, JVal.truthy, h]
  | obj => rfl

/-- `v ? v.trim() : ""` on a string is just the trimmed string. -/
theorem optTrim_str (p : String) : optTrim (.str p) = .ok (jsTrimStr p) := by
  by_cases hp : p = ""
  · subst hp; rfl
  · simp [optTrim, JVal.truthy, JVal.trimJS, hp]

/-- `v || ""` on a string is that string. -/
theorem jsOrEmpty_str (s : String) : jsOrEmpty (.str s) = .str s := by
  by_cases hs : s = ""
  · subst hs; rfl
  · simp [jsOrEmpty, JVal.truthy, hs]

end DecksMN

namespace DecksMN

/-- When the full-name check fails, the handler stops with the full-name
400 response. -/
theorem validateAndBuild_fullName_fail {req : Req} {now : String}
    (h : checkRequired req.fullName = .ok true) :
    validateAndBuild req now = .ok (.inl fullNameErrResp) := by
  unfold validateAndBuild
  rw [h]

/-- When the full name passes and the email check fails, the handler stops
with the email 400 response. -/
theorem validateAndBuild_email_fail {req : Req} {now : String}
    (h1 : checkRequired req.fullName = .ok false)
    (h2 : checkEmail req.email = .ok true) :
    validateAndBuild req now = .ok (.inl emailErrResp) := by
  unfold validateAndBuild
  rw [h1, h2]

/-- When full name and email pass and the message check fails, the handler
stops with the message 400 response. -/
theorem validateAndBuild_message_fail {req : Req} {now : String}
    (h1 : checkRequired req.fullName = .ok false)
    (h2 : checkEmail req.email = .ok false)
    (h3 : checkRequired req.message = .ok true) :
    validateAndBuild req now = .ok (.inl messageErrResp) := by
  unfold validateAndBuild
  rw [h1, h2, h3]

/-- When a check raises, the exception propagates out of the
validation/build phase. -/
theorem validateAndBuild_fullName_raise {req : Req} {now : String} {e : String}
    (h : checkRequired req.fullName = .error e) :
    validateAndBuild req now = .error e := by
  unfold validateAndBuild
  rw [h]

/-- An exception in the email check propagates. -/
theorem validateAndBuild_email_raise {req : Req} {now : String} {e : String}
    (h1 : checkRequired req.fullName = .ok false)
    (h2 : checkEmail req.email = .error e) :
    validateAndBuild req now = .error e := by
  unfold validateAndBuild
  rw [h1, h2]

/-- An exception in the message check propagates. -/
theorem validateAndBuild_message_raise {req : Req} {now : String} {e : String}
    (h1 : checkRequired req.fullName = .ok false)
    (h2 : checkEmail req.email = .ok false)
    (h3 : checkRequired req.message = .error e) :
    validateAndBuild req now = .error e := by
  unfold validateAndBuild
  rw [h1, h2, h3]

/-- A 400 validation response identifies which check failed, with the
earlier checks having passed. -/
theorem validateAndBuild_inl {req : Req} {now : String} {r : Resp}
    (hv : validateAndBuild req now = .ok (.inl r)) :
    (r = fullNameErrResp ∧ checkRequired req.fullName = .ok true) ∨
    (r = emailErrResp ∧ checkRequired req.fullName = .ok false ∧
      checkEmail req.email = .ok true) ∨
    (r = messageErrResp ∧ checkRequired req.fullName = .ok false ∧
      checkEmail req.email = .ok false ∧ checkRequired req.message = .ok true) := by
  unfold validateAndBuild at hv
  repeat' split at hv
  all_goals simp_all

/-- A successful validation/build run pins the three required fields to
strings and the lead to the object literal of server.js lines 71-82. -/
theorem validateAndBuild_inr {req : Req} {now : String} {lead : Lead}
    (hv : validateAndBuild req now = .ok (.inr lead)) :
    ∃ fn em ms ph zp,
      req.fullName = .str fn ∧ req.email = .str em ∧ req.message = .str ms ∧
      optTrim req.phone = .ok ph ∧ optTrim req.zipCode = .ok zp ∧
      lead =
        { fullName := jsTrimStr fn
          email := jsToLowerStr (jsTrimStr em)
          phone := ph
          service := jsOrEmpty req.service
          zipCode := zp
          financing := jsOrEmpty req.financing
          message := jsTrimStr ms
          submittedAt := now
          source := refererOrDirect req.referer
          ip := req.ip } := by
  cases h1 : checkRequired req.fullName with
  | error e => rw [validateAndBuild_fullName_raise h1] at hv; exact absurd hv (by simp)
  | ok b1 =>
  cases b1 with
  | true => rw [validateAndBuild_fullName_fail h1] at hv; exact absurd hv (by simp)
  | false =>
  cases h2 : checkEmail req.email with
  | error e => rw [validateAndBuild_email_raise h1 h2] at hv; exact absurd hv (by simp)
  | ok b2 =>
  cases b2 with
  | true => rw [validateAndBuild_email_fail h1 h2] at hv; exact absurd hv (by simp)
  | false =>
  cases h3 : checkRequired req.message with
  | error e => rw [validateAndBuild_message_raise h1 h2 h3] at hv; exact absurd hv (by simp)
  | ok b3 =>
  cases b3 with
  | true => rw [validateAndBuild_message_fail h1 h2 h3] at hv; exact absurd hv (by simp)
  | false =>
  obtain ⟨sf, hsf, hsf1, hsf2⟩ := checkRequired_ok_false h1
  obtain ⟨se, hse, hse1, hse2, hse3⟩ := checkEmail_ok_false h2
  obtain ⟨sm, hsm, hsm1, hsm2⟩ := checkRequired_ok_false h3
  cases h6 : optTrim req.phone with
  | error e =>
    unfold validateAndBuild at hv
    rw [h1, h2, h3, hsf, hse, hsm, h6] at hv
    simp [JVal.trimJS] at hv
  | ok ph =>
  cases h7 : optTrim req.zipCode with
  | error e =>
    unfold validateAndBuild at hv
    rw [h1, h2, h3, hsf, hse, hsm, h6, h7] at hv
    simp [JVal.trimJS] at hv
  | ok zp =>
  unfold validateAndBuild at hv
  rw [h1, h2, h3, hsf, hse, hsm, h6, h7] at hv
  simp only [JVal.trimJS] at hv
  refine ⟨sf, se, sm, ph, zp, hsf, hse, hsm, rfl, rfl, ?_⟩
  simp at hv
  simp [hv]

/-- C4: for every input that fails validation the handler returns that
validation error and performs no sink calls - neither `forwardToWebhook`
nor `forwardToAPI` is invoked, nothing settles, and nothing is logged. -/
theorem validation_error_performs_no_sink_calls (cfg : Config) (req : Req)
    (now : String) (wB aB : SinkBehavior) (errResp : Resp)
    (hv : validateAndBuild req now = .ok (.inl errResp)) :
    handleSubmit cfg req now wB aB =
      { resp := errResp, calls := [], settled := [], respTime := 0, logs := [] } := by
  unfold handleSubmit
  rw [hv]

/-- C4 witness: a request with no full name, against a configuration with
both sinks set, gets the full-name 400 and no sink calls. -/
theorem validation_error_performs_no_sink_calls_witness :
    handleSubmit cfgBoth reqNoName "t" behav200 behav200 =
      { resp := fullNameErrResp, calls := [], settled := [], respTime := 0,
        logs := [] } :=
  validation_error_performs_no_sink_calls cfgBoth reqNoName "t" behav200 behav200
    fullNameErrResp rfl

/-- C5: for every input that passes validation, whatever sinks are
configured and however they behave, the handler responds with the fixed
success acknowledgment; sink errors never reach the caller. -/
theorem valid_submit_always_acks (cfg : Config) (req : Req) (now : String)
    (wB aB : SinkBehavior) (lead : Lead)
    (hv : validateAndBuild req now = .ok (.inr lead)) :
    (handleSubmit cfg req now wB aB).resp = ackResp := by
  unfold handleSubmit
  rw [hv]

/-- C5 witness: a valid request with no sinks configured still gets the
fixed acknowledgment. -/
theorem valid_submit_always_acks_witness :
    (handleSubmit cfgNone reqValid "t" behav200 behavHang).resp = ackResp :=
  valid_submit_always_acks cfgNone reqValid "t" behav200 behavHang leadValid rfl

/-- C9: an exception thrown during handling is caught at the handler
boundary: the caller gets the fixed 500 body, which does not depend on the
error, no sink is called, and the underlying error goes to the log only. -/
theorem internal_fault_caught_as_500 (cfg : Config) (req : Req) (now : String)
    (wB aB : SinkBehavior) (e : String)
    (hv : validateAndBuild req now = .error e) :
    handleSubmit cfg req now wB aB =
      { resp := internalErrResp, calls := [], settled := [], respTime := 0,
        logs := ["[Submit error] " ++ e] } := by
  unfold handleSubmit
  rw [hv]

/-- C9 witness: a numeric full name raises in `.trim()`; the caller sees
the generic 500 and the TypeError is only logged. -/
theorem internal_fault_caught_as_500_witness :
    handleSubmit cfgBoth reqNum5 "t" behav200 behav200 =
      { resp := internalErrResp, calls := [], settled := [], respTime := 0,
        logs := ["[Submit error] " ++ trimErrMsg] } :=
  internal_fault_caught_as_500 cfgBoth reqNum5 "t" behav200 behav200 trimErrMsg rfl

end DecksMN

namespace DecksMN

/-- C2: on string-or-absent required fields, validation runs in the fixed
order full name, email, message, and the first failure wins: the full-name
400 appears exactly when the full name is missing or blank after trim;
the email 400 exactly when the full name is fine and the email is missing,
blank, or fails the pattern; the message 400 exactly when the earlier two
are fine and the message is missing or blank; and no validation error
appears exactly when all three pass. -/
theorem validation_fixed_order_first_failure_wins (req : Req) (now : String)
    (h1 : isStrOrAbsent req.fullName = true)
    (h2 : isStrOrAbsent req.email = true)
    (h3 : isStrOrAbsent req.message = true) :
    (validateAndBuild req now = .ok (.inl fullNameErrResp) ↔
      specMissingOrBlank req.fullName = true) ∧
    (validateAndBuild req now = .ok (.inl emailErrResp) ↔
      (specMissingOrBlank req.fullName = false ∧
        specEmailInvalid req.email = true)) ∧
    (validateAndBuild req now = .ok (.inl messageErrResp) ↔
      (specMissingOrBlank req.fullName = false ∧
        specEmailInvalid req.email = false ∧
        specMissingOrBlank req.message = true)) ∧
    ((∀ r : Resp, validateAndBuild req now ≠ .ok (.inl r)) ↔
      (specMissingOrBlank req.fullName = false ∧
        specEmailInvalid req.email = false ∧
        specMissingOrBlank req.message = false)) := by
  have e1 := checkRequired_eq_spec h1
  have e2 := checkEmail_eq_spec h2
  have e3 := checkRequired_eq_spec h3
  refine ⟨⟨fun hv => ?_, fun hs => ?_⟩, ⟨fun hv => ?_, fun hs => ?_⟩,
    ⟨fun hv => ?_, fun hs => ?_⟩, ⟨fun hv => ?_, fun hs => ?_⟩⟩
  · rcases validateAndBuild_inl hv with ⟨_, hc⟩ | ⟨hr, _⟩ | ⟨hr, _⟩
    · rw [e1] at hc; simpa using hc
    · exact absurd hr (by decide)
    · exact absurd hr (by decide)
  · exact validateAndBuild_fullName_fail (by rw [e1, hs])
  · rcases validateAndBuild_inl hv with ⟨hr, _⟩ | ⟨_, hc1, hc2⟩ | ⟨hr, _⟩
    · exact absurd hr (by decide)
    · rw [e1] at hc1; rw [e2] at hc2
      exact ⟨by simpa using hc1, by simpa using hc2⟩
    · exact absurd hr (by decide)
  · exact validateAndBuild_email_fail (by rw [e1, hs.1]) (by rw [e2, hs.2])
  · rcases validateAndBuild_inl hv with ⟨hr, _⟩ | ⟨hr, _⟩ | ⟨_, hc1, hc2, hc3⟩
    · exact absurd hr (by decide)
    · exact absurd hr (by decide)
    · rw [e1] at hc1; rw [e2] at hc2; rw [e3] at hc3
      exact ⟨by simpa using hc1, by simpa using hc2, by simpa using hc3⟩
  · exact validateAndBuild_message_fail (by rw [e1, hs.1]) (by rw [e2, hs.2.1])
      (by rw [e3, hs.2.2])
  · by_cases b1 : specMissingOrBlank req.fullName
    · exact absurd (validateAndBuild_fullName_fail (by rw [e1, b1])) (hv _)
    · by_cases b2 : specEmailInvalid req.email
      · exact absurd
          (validateAndBuild_email_fail (by rw [e1]; simpa using b1) (by rw [e2, b2]))
          (hv _)
      · by_cases b3 : specMissingOrBlank req.message
        · exact absurd
            (validateAndBuild_message_fail (by rw [e1]; simpa using b1)
              (by rw [e2]; simpa using b2) (by rw [e3, b3])) (hv _)
        · exact ⟨by simpa using b1, by simpa using b2, by simpa using b3⟩
  · intro r hv
    rcases validateAndBuild_inl hv with ⟨_, hc⟩ | ⟨_, _, hc⟩ | ⟨_, _, _, hc⟩
    · rw [e1, hs.1] at hc; simp at hc
    · rw [e2, hs.2.1] at hc; simp at hc
    · rw [e3, hs.2.2] at hc; simp at hc

/-- C2 witness: instantiated at a request whose full name is absent - the
four equivalences hold there, the first one pinning the full-name 400. -/
theorem validation_fixed_order_first_failure_wins_witness :
    validateAndBuild reqNoName "t" = .ok (.inl fullNameErrResp) :=
  ((validation_fixed_order_first_failure_wins reqNoName "t" rfl rfl rfl).1).mpr rfl

end DecksMN

namespace DecksMN

/-- C3: for every input that passes validation, the constructed lead
carries the trimmed name and message, the trimmed lower-cased email, the
trimmed phone and zip (empty when the field is absent), service and
financing verbatim (empty string when absent), the receipt timestamp, the
referrer as source (with "direct" when the header is absent or empty) and
the caller address. -/
theorem lead_record_fields (req : Req) (now : String) (lead : Lead)
    (hv : validateAndBuild req now = .ok (.inr lead)) :
    (∃ fn, req.fullName = .str fn ∧ lead.fullName = jsTrimStr fn) ∧
    (∃ em, req.email = .str em ∧ lead.email = jsToLowerStr (jsTrimStr em)) ∧
    (∃ ms, req.message = .str ms ∧ lead.message = jsTrimStr ms) ∧
    (∀ p, req.phone = .str p → lead.phone = jsTrimStr p) ∧
    ((req.phone = .undef ∨ req.phone = .null) → lead.phone = "") ∧
    (∀ z, req.zipCode = .str z → lead.zipCode = jsTrimStr z) ∧
    ((req.zipCode = .undef ∨ req.zipCode = .null) → lead.zipCode = "") ∧
    (∀ s, req.service = .str s → lead.service = .str s) ∧
    ((req.service = .undef ∨ req.service = .null) → lead.service = .str "") ∧
    (∀ f, req.financing = .str f → lead.financing = .str f) ∧
    ((req.financing = .undef ∨ req.financing = .null) → lead.financing = .str "") ∧
    lead.submittedAt = now ∧
    (∀ r, req.referer = some r → r ≠ "" → lead.source = r) ∧
    ((req.referer = none ∨ req.referer = some "") → lead.source = "direct") ∧
    lead.ip = req.ip := by
  obtain ⟨fn, em, ms, ph, zp, hfn, hem, hms, hph, hzp, hlead⟩ := validateAndBuild_inr hv
  subst hlead
  refine ⟨⟨fn, hfn, rfl⟩, ⟨em, hem, rfl⟩, ⟨ms, hms, rfl⟩, ?_, ?_, ?_, ?_, ?_, ?_,
    ?_, ?_, rfl, ?_, ?_, rfl⟩
  · intro p hp
    rw [hp, optTrim_str] at hph
    simpa using hph.symm
  · intro hp
    rcases hp with hp | hp <;> rw [hp] at hph <;> simpa [optTrim, JVal.truthy] using hph.symm
  · intro z hz
    rw [hz, optTrim_str] at hzp
    simpa using hzp.symm
  · intro hz
    rcases hz with hz | hz <;> rw [hz] at hzp <;> simpa [optTrim, JVal.truthy] using hzp.symm
  · intro s hs
    simp [hs, jsOrEmpty_str]
  · intro hs
    rcases hs with hs | hs <;> simp [hs, jsOrEmpty, JVal.truthy]
  · intro f hf
    simp [hf, jsOrEmpty_str]
  · intro hf
    rcases hf with hf | hf <;> simp [hf, jsOrEmpty, JVal.truthy]
  · intro r hr hrne
    simp [refererOrDirect, hr, hrne]
  · intro hr
    rcases hr with hr | hr <;> simp [refererOrDirect, hr]

/-- A fully populated valid request, with whitespace around the trimmed
fields and an upper-case email. -/
def reqFull : Req :=
  { fullName := .str "  Jane Doe ", email := .str "JANE@Example.com",
    phone := .str " 612 555 0123 ", service := .str "Pool Decks",
    message := .str " Need a deck ", zipCode := .str " 55401 ",
    financing := .str "yes", referer := some "https://example.com/decks",
    ip := "203.0.113.42" }

/-- The lead `reqFull` builds at time `"t"`. -/
def leadFull : Lead :=
  { fullName := "Jane Doe", email := "jane@example.com", phone := "612 555 0123",
    service := .str "Pool Decks", zipCode := "55401", financing := .str "yes",
    message := "Need a deck", submittedAt := "t",
    source := "https://example.com/decks", ip := "203.0.113.42" }

/-- C3 witness: on `reqFull` the theorem yields the trimmed phone. -/
theorem lead_record_fields_witness :
    leadFull.phone = jsTrimStr " 612 555 0123 " :=
  (lead_record_fields reqFull "t" leadFull rfl).2.2.2.1 " 612 555 0123 " rfl

end DecksMN

namespace DecksMN

/-- `response.ok` unfolded to the 2xx range. -/
theorem respOk_iff (r : FetchResponse) :
    r.respOk = true ↔ (200 ≤ r.status ∧ r.status < 300) := by
  simp [FetchResponse.respOk]

/-- C6: each sink call is independent and its failure is contained: the
forwarders reject exactly when the response status is outside 2xx (with
the sink named in the message) or the network fails; the attached catch
turns any rejection into a resolved `error` object and logs the sink name
with the error message; so a wrapped sink promise never rejects. -/
theorem sink_failures_caught_and_logged (url key m : String) (payload : Lead)
    (r : FetchResponse) (o : FetchOutcome) :
    ((forwardToWebhook url payload (.response r)).2 =
        .rejected ("Webhook returned " ++ toString r.status) ↔
      ¬(200 ≤ r.status ∧ r.status < 300)) ∧
    ((forwardToWebhook url payload (.response r)).2 = .resolved r ↔
      (200 ≤ r.status ∧ r.status < 300)) ∧
    (forwardToWebhook url payload (.networkFailure m)).2 = .rejected m ∧
    ((forwardToAPI url key payload (.response r)).2 =
        .rejected ("API returned " ++ toString r.status) ↔
      ¬(200 ≤ r.status ∧ r.status < 300)) ∧
    ((forwardToAPI url key payload (.response r)).2 = .resolved r ↔
      (200 ≤ r.status ∧ r.status < 300)) ∧
    (forwardToAPI url key payload (.networkFailure m)).2 = .rejected m ∧
    (∃ v, (wrapSink "Webhook" (forwardToWebhook url payload o).2).1 = .resolved v) ∧
    (∃ v, (wrapSink "API" (forwardToAPI url key payload o).2).1 = .resolved v) ∧
    (∀ msg, (forwardToWebhook url payload o).2 = .rejected msg →
      wrapSink "Webhook" (forwardToWebhook url payload o).2 =
        (.resolved (.errObj msg), ["[Webhook error] " ++ msg])) ∧
    (∀ msg, (forwardToAPI url key payload o).2 = .rejected msg →
      wrapSink "API" (forwardToAPI url key payload o).2 =
        (.resolved (.errObj msg), ["[API error] " ++ msg])) := by
  have hok := respOk_iff r
  refine ⟨?_, ?_, rfl, ?_, ?_, rfl, ?_, ?_, ?_, ?_⟩
  · by_cases h : r.respOk <;>
      simp_all [forwardToWebhook, fetchModel]
  · by_cases h : r.respOk <;>
      simp_all [forwardToWebhook, fetchModel]
  · by_cases h : r.respOk <;>
      simp_all [forwardToAPI, fetchModel]
  · by_cases h : r.respOk <;>
      simp_all [forwardToAPI, fetchModel]
  · cases hw : (forwardToWebhook url payload o).2 with
    | resolved v => exact ⟨.response v, by simp [wrapSink, toSettled, jsCatch]⟩
    | rejected msg => exact ⟨.errObj msg, by simp [wrapSink, toSettled, jsCatch]⟩
  · cases ha : (forwardToAPI url key payload o).2 with
    | resolved v => exact ⟨.response v, by simp [wrapSink, toSettled, jsCatch]⟩
    | rejected msg => exact ⟨.errObj msg, by simp [wrapSink, toSettled, jsCatch]⟩
  · intro msg hmsg
    rw [hmsg]
    rfl
  · intro msg hmsg
    rw [hmsg]
    rfl

/-- C6 witness: a webhook network failure is rejected with the failure
message (applied at concrete inputs). -/
theorem sink_failures_caught_and_logged_witness :
    (forwardToWebhook "https://hooks.example/lead" leadValid
        (.networkFailure "socket hang up")).2 = .rejected "socket hang up" :=
  (sink_failures_caught_and_logged "https://hooks.example/lead" "k-123"
      "socket hang up" leadValid ⟨200⟩ (.networkFailure "socket hang up")).2.2.1

/-- C8: both sinks POST the JSON-serialized lead with a
`Content-Type: application/json` header; the webhook request never carries
an authorization header; the API request carries
`Authorization: Bearer <key>` exactly when the key is non-empty, and no
other authorization header ever. -/
theorem sink_requests_are_json_posts (url key : String) (payload : Lead)
    (o : FetchOutcome) :
    (forwardToWebhook url payload o).1 =
      { url := url, method := "POST",
        headers := [("Content-Type", "application/json")],
        body := payload.stringify } ∧
    (∀ v, ("Authorization", v) ∉ (forwardToWebhook url payload o).1.headers) ∧
    (forwardToAPI url key payload o).1.url = url ∧
    (forwardToAPI url key payload o).1.method = "POST" ∧
    (forwardToAPI url key payload o).1.body = payload.stringify ∧
    ("Content-Type", "application/json") ∈ (forwardToAPI url key payload o).1.headers ∧
    ((("Authorization", "Bearer " ++ key) ∈ (forwardToAPI url key payload o).1.headers) ↔
      key ≠ "") ∧
    (∀ v, ("Authorization", v) ∈ (forwardToAPI url key payload o).1.headers →
      key ≠ "" ∧ v = "Bearer " ++ key) := by
  refine ⟨rfl, ?_, ?_, ?_, ?_, ?_, ?_, ?_⟩
  · intro v
    simp [forwardToWebhook, fetchModel]
  · by_cases hk : key = "" <;> simp [forwardToAPI, fetchModel, hk]
  · by_cases hk : key = "" <;> simp [forwardToAPI, fetchModel, hk]
  · by_cases hk : key = "" <;> simp [forwardToAPI, fetchModel, hk]
  · by_cases hk : key = "" <;> simp [forwardToAPI, fetchModel, hk]
  · by_cases hk : key = "" <;> simp [forwardToAPI, fetchModel, hk]
  · intro v
    by_cases hk : key = "" <;> simp [forwardToAPI, fetchModel, hk]

/-- C8 witness: with an empty key no authorization header is present on
the API request (applied at concrete inputs). -/
theorem sink_requests_are_json_posts_witness :
    ("Authorization", "Bearer " ++ "") ∈
        (forwardToAPI "https://api.example/lead" "" leadValid
          (.response ⟨200⟩)).1.headers ↔
      ("" : String) ≠ "" :=
  (sink_requests_are_json_posts "https://api.example/lead" "" leadValid
      (.response ⟨200⟩)).2.2.2.2.2.2.1

end DecksMN

namespace DecksMN

/-- The race never waits past the ceiling. -/
theorem raceTime_le_ceiling (ts : List (Option Nat)) (ceiling : Nat) :
    raceTime ts ceiling ≤ ceiling := by
  unfold raceTime
  split
  · exact min_le_right _ _
  · exact le_refl _

/-- C7: with at least one sink configured, a validated request is answered
at `Promise.race` time: exactly when all configured sink promises have
settled or the 8-second ceiling elapses, whichever comes first; it never
exceeds 8000 ms; and hitting the ceiling cancels nothing - the issued sink
requests are the same whatever the sinks' timing or outcome. -/
theorem submit_waits_race_of_allSettled_and_ceiling (cfg : Config) (req : Req)
    (now : String) (wB aB : SinkBehavior) (lead : Lead)
    (hv : validateAndBuild req now = .ok (.inr lead))
    (hsink : cfg.webhookUrl ≠ "" ∨ cfg.apiUrl ≠ "") :
    (handleSubmit cfg req now wB aB).respTime =
      raceTime (configuredSettleTimes cfg wB aB) 8000 ∧
    (handleSubmit cfg req now wB aB).respTime ≤ 8000 ∧
    (∀ t, allSettledTime (configuredSettleTimes cfg wB aB) = some t →
      (handleSubmit cfg req now wB aB).respTime = min t 8000) ∧
    (allSettledTime (configuredSettleTimes cfg wB aB) = none →
      (handleSubmit cfg req now wB aB).respTime = 8000) ∧
    (∀ wB2 aB2 : SinkBehavior,
      (handleSubmit cfg req now wB2 aB2).calls =
        (handleSubmit cfg req now wB aB).calls) := by
  have hne : ((if cfg.webhookUrl ≠ "" then [("Webhook", (forwardToWebhook cfg.webhookUrl lead wB.outcome).1)] else []) ++
      (if cfg.apiUrl ≠ "" then [("API", (forwardToAPI cfg.apiUrl cfg.apiKey lead aB.outcome).1)] else [])).isEmpty = false := by
    rcases hsink with hw | ha
    · simp [hw]
    · cases hw : decide (cfg.webhookUrl ≠ "") <;> simp_all
  have hrt : (handleSubmit cfg req now wB aB).respTime =
      raceTime (configuredSettleTimes cfg wB aB) 8000 := by
    unfold handleSubmit
    rw [hv]
    simp only []
    simp [hne]
    intro h1 h2
    rcases hsink with h | h <;> contradiction
  refine ⟨hrt, ?_, ?_, ?_, ?_⟩
  · rw [hrt]
    exact raceTime_le_ceiling _ _
  · intro t ht
    rw [hrt]
    unfold raceTime
    rw [ht]
  · intro ht
    rw [hrt]
    unfold raceTime
    rw [ht]
  · intro wB2 aB2
    unfold handleSubmit
    rw [hv]
    rfl

/-- C7 witness: both sinks configured, one settling at 100 ms and one
never settling - the response goes out exactly at the 8000 ms ceiling. -/
theorem submit_waits_race_of_allSettled_and_ceiling_witness :
    (handleSubmit cfgBoth reqValid "t" behav500 behavHang).respTime = 8000 :=
  (submit_waits_race_of_allSettled_and_ceiling cfgBoth reqValid "t" behav500
      behavHang leadValid rfl (Or.inl (by decide))).2.2.2.1 rfl

end DecksMN

namespace DecksMN

/-- The exact input of the claim: full name "Jane Doe", email
"JANE@Example.com " with a trailing space, message "Need a deck". -/
def reqC1 : Req :=
  { fullName := .str "Jane Doe", email := .str "JANE@Example.com ",
    phone := .undef, service := .undef, message := .str "Need a deck",
    zipCode := .undef, financing := .undef, referer := none,
    ip := "203.0.113.5" }

/-- The same input with the trailing space removed from the email. -/
def reqC1Fixed : Req :=
  { reqC1 with email := .str "JANE@Example.com" }

/-- The lead `reqC1Fixed` builds at time `"t"`. -/
def leadC1 : Lead :=
  { fullName := "Jane Doe", email := "jane@example.com", phone := "",
    service := .str "", zipCode := "", financing := .str "",
    message := "Need a deck", submittedAt := "t", source := "direct",
    ip := "203.0.113.5" }

/-- C1 counterexample: on the claimed input validation does not pass - the
regex of line 63 runs on the untrimmed email, whose trailing space fails
`[^\s@]+$`, so the handler returns the email 400 and no lead is built. -/
theorem trailing_space_email_fails_validation :
    (handleSubmit cfgNone reqC1 "t" behav200 behav200).resp = emailErrResp ∧
    (handleSubmit cfgNone reqC1 "t" behav200 behav200).resp.status = 400 ∧
    emailRegexTest "JANE@Example.com " = false := by
  exact ⟨rfl, rfl, rfl⟩

/-- C1 amended: with the trailing space removed the submission succeeds
and the lead holds the trimmed lower-cased email "jane@example.com" and
the full name "Jane Doe". -/
theorem valid_email_submit_succeeds :
    validateAndBuild reqC1Fixed "t" = .ok (.inr leadC1) ∧
    (handleSubmit cfgNone reqC1Fixed "t" behav200 behav200).resp = ackResp ∧
    leadC1.email = "jane@example.com" ∧ leadC1.fullName = "Jane Doe" := by
  exact ⟨rfl, rfl, rfl, rfl⟩

/-- A request with the full name absent and a numeric (truthy non-string)
email. -/
def reqC10 : Req :=
  { fullName := .undef, email := .num 5, phone := .undef, service := .undef,
    message := .str "hi", zipCode := .undef, financing := .undef,
    referer := none, ip := "203.0.113.9" }

/-- C10 counterexample: an input with a truthy non-string required field
(the email is the number 5) for which the handler nevertheless returns a
400 validation error, not the 500: the absent full name fails first, so
the email's `.trim()` is never reached. -/
theorem nonstring_field_can_still_get_400 :
    truthyNonStr reqC10.email = true ∧
    (handleSubmit cfgNone reqC10 "t" behav200 behav200).resp = fullNameErrResp ∧
    (handleSubmit cfgNone reqC10 "t" behav200 behav200).resp ≠ internalErrResp := by
  refine ⟨rfl, rfl, ?_⟩
  decide

/-- C10 amended: a truthy non-string required field causes the generic 500
when it is the first field to be examined that does not pass - full name
truthy non-string; or full name passing and email truthy non-string; or
full name and email passing and message truthy non-string - since the
`.trim()` call throws and the boundary catch answers 500.  Conversely a
400 is only ever triggered by a field that is falsy or a string. -/
theorem nonstring_required_field_faults (cfg : Config) (req : Req)
    (now : String) (wB aB : SinkBehavior) :
    (truthyNonStr req.fullName = true →
      handleSubmit cfg req now wB aB =
        { resp := internalErrResp, calls := [], settled := [], respTime := 0,
          logs := ["[Submit error] " ++ trimErrMsg] }) ∧
    (checkRequired req.fullName = .ok false → truthyNonStr req.email = true →
      handleSubmit cfg req now wB aB =
        { resp := internalErrResp, calls := [], settled := [], respTime := 0,
          logs := ["[Submit error] " ++ trimErrMsg] }) ∧
    (checkRequired req.fullName = .ok false → checkEmail req.email = .ok false →
      truthyNonStr req.message = true →
      handleSubmit cfg req now wB aB =
        { resp := internalErrResp, calls := [], settled := [], respTime := 0,
          logs := ["[Submit error] " ++ trimErrMsg] }) ∧
    (validateAndBuild req now = .ok (.inl fullNameErrResp) →
      req.fullName.truthy = false ∨ req.fullName.isStr = true) ∧
    (validateAndBuild req now = .ok (.inl emailErrResp) →
      req.email.truthy = false ∨ req.email.isStr = true) ∧
    (validateAndBuild req now = .ok (.inl messageErrResp) →
      req.message.truthy = false ∨ req.message.isStr = true) := by
  refine ⟨fun h => ?_, fun h1 h => ?_, fun h1 h2 h => ?_, fun hv => ?_,
    fun hv => ?_, fun hv => ?_⟩
  · unfold handleSubmit
    rw [validateAndBuild_fullName_raise (checkRequired_truthyNonStr h)]
  · unfold handleSubmit
    rw [validateAndBuild_email_raise h1 (checkEmail_truthyNonStr h)]
  · unfold handleSubmit
    rw [validateAndBuild_message_raise h1 h2 (checkRequired_truthyNonStr h)]
  · rcases validateAndBuild_inl hv with ⟨_, hc⟩ | ⟨hr, _⟩ | ⟨hr, _⟩
    · exact checkRequired_ok_true_shape hc
    · exact absurd hr (by decide)
    · exact absurd hr (by decide)
  · rcases validateAndBuild_inl hv with ⟨hr, _⟩ | ⟨_, _, hc⟩ | ⟨hr, _⟩
    · exact absurd hr (by decide)
    · exact checkEmail_ok_true_shape hc
    · exact absurd hr (by decide)
  · rcases validateAndBuild_inl hv with ⟨hr, _⟩ | ⟨hr, _⟩ | ⟨_, _, _, hc⟩
    · exact absurd hr (by decide)
    · exact absurd hr (by decide)
    · exact checkRequired_ok_true_shape hc

/-- C10 amended witness: a numeric full name makes the handler answer the
generic 500 with the TypeError only logged. -/
theorem nonstring_required_field_faults_witness :
    handleSubmit cfgNone reqNum5 "t" behav200 behav200 =
      { resp := internalErrResp, calls := [], settled := [], respTime := 0,
        logs := ["[Submit error] " ++ trimErrMsg] } :=
  (nonstring_required_field_faults cfgNone reqNum5 "t" behav200 behav200).1 rfl

end DecksMN
